import Mathlib

/-!
Shallow embedding of the outbound-networking layer of this repository:
  * crates/factor-outbound-http/src/wasi.rs   (HTTP dispatch pipeline)
  * crates/factor-outbound-redis/src/host.rs  (key-value / pub-sub adapter)
  * crates/outbound-mysql/src/lib.rs          (relational adapter)

Asynchronous Rust code is embedded as pure functions over explicit
oracles: the outcome of each `await` (DNS answers, connection results,
elapsed durations, backend replies) is an input, and the function
reproduces the source's control flow on those inputs.  Machine integers
that the code never overflows are `Nat`.
-/

namespace Spin

/-- Embeds `wasmtime_wasi_http::bindings::http::types::ErrorCode`, restricted to
the variants the embedded code constructs.  `dnsError` carries the
`DnsErrorPayload` fields (`rcode`, `info_code`) built by `dns_error` in
wasi.rs. -/
inductive ErrorCode where
  | dnsError (rcode : String) (infoCode : Nat)
  | httpRequestDenied
  | httpRequestUriInvalid
  | connectionTimeout
  | connectionRefused
  | connectionReadTimeout
  | tlsProtocolError
  | httpProtocolError
  | internalError (msg : String)
deriving DecidableEq, Repr

/-- A URI as the pipeline manipulates it: optional scheme, optional
authority (host plus optional port text) and optional path-and-query.
A URI is absolute exactly when its authority is present
(`request.uri().authority().is_some()` in wasi.rs line 125). -/
structure UriModel where
  scheme : Option String
  authority : Option String
  pathAndQuery : Option String
deriving DecidableEq, Repr

/-- Rendering of a `UriModel`, used to state the end-to-end rewrite
example.  Mirrors `http::Uri` display: scheme `://` authority, then the
path and query (empty when absent). -/
def UriModel.render (u : UriModel) : String :=
  (match u.scheme with | some s => s ++ "://" | none => "") ++
  (u.authority.getD "") ++ (u.pathAndQuery.getD "")

/-- The outgoing request as mutated by `send_request_impl`: its URI, its
header list, and whether `spin_telemetry::inject_trace_context` has run
on it.  Headers are an association list; `http::HeaderMap::insert`
replaces any existing entry with the same name. -/
structure HttpRequest where
  uri : UriModel
  headers : List (String × String)
  traceContextInjected : Bool
deriving DecidableEq, Repr

/-- Embeds `http::HeaderMap::insert`: set `name` to `value`, replacing any
previous entry of that name. -/
def insertHeader (hs : List (String × String)) (name value : String) :
    List (String × String) :=
  (name, value) :: hs.filter (fun p => p.1 ≠ name)

/-- Embeds `wasmtime_wasi_http::types::OutgoingRequestConfig`.  Durations are
abstract `Nat` ticks. -/
structure OutgoingRequestConfig where
  use_tls : Bool
  connect_timeout : Nat
  first_byte_timeout : Nat
  between_bytes_timeout : Nat
deriving DecidableEq, Repr

/-- The values returned by the two asynchronous policy checks that
`send_request_impl` performs on this one request:
`outbound_allowed_hosts.check_url(uri, "https")` and
`outbound_allowed_hosts.check_relative_url(["http", "https"])`.
Each returns `anyhow::Result<bool>`; `none` embeds the `Err` case, which
the caller collapses with `.unwrap_or(false)`. -/
structure AllowedHostsChecks where
  checkUrl : Option Bool
  checkRelativeUrl : Option Bool
deriving DecidableEq, Repr

/-- Embeds `SelfRequestOrigin` (scheme and authority of the component's own
address).  Its methods `use_tls`, `host_header` and `into_uri` live in
factor-outbound-http's lib.rs, which is not among the provided sources.
Modelled from the spec: the Self-Origin is "the (scheme, authority) pair
describing the component's own externally reachable address"; the rewrite
step must "set the TLS flag from the self-origin's scheme, inject a
`Host` header from the self-origin, ... and rewrite the URI to the
self-origin's authority plus the original path/query". -/
structure SelfRequestOrigin where
  scheme : String
  authority : String
deriving DecidableEq, Repr

/-- Modelled from the spec: `SelfRequestOrigin::use_tls` — the TLS flag
is set "from the self-origin's scheme". -/
def SelfRequestOrigin.useTls (o : SelfRequestOrigin) : Bool :=
  o.scheme == "https"

/-- Modelled from the spec: `SelfRequestOrigin::host_header` — "inject a
`Host` header from the self-origin", i.e. its authority. -/
def SelfRequestOrigin.hostHeader (o : SelfRequestOrigin) : String :=
  o.authority

/-- Modelled from the spec: `SelfRequestOrigin::into_uri` — "rewrite the
URI to the self-origin's authority plus the original path/query". -/
def SelfRequestOrigin.intoUri (o : SelfRequestOrigin)
    (pathAndQuery : Option String) : UriModel :=
  ⟨some o.scheme, some o.authority, pathAndQuery⟩

/-- Result of `send_request_impl` up to the hand-off to
`send_request_handler`: the function's Rust type is
`anyhow::Result<Result<IncomingResponse, ErrorCode>>`.
`anyhowErr` is the outer `Err` (here only the `context("authority not
set")` line), `errorCode` an inner `Ok(Err(code))` early return, and
`dispatch` records the request and config with which
`send_request_handler` is invoked (wasi.rs line 165). -/
inductive ImplOutcome where
  | anyhowErr (msg : String)
  | errorCode (code : ErrorCode)
  | dispatch (request : HttpRequest) (config : OutgoingRequestConfig)
deriving DecidableEq, Repr

/-- Tail of `send_request_impl` (wasi.rs lines 158-165): the
`request.uri().authority().context("authority not set")?` check followed
by the call of `send_request_handler` on the (possibly rewritten)
request and config. -/
def dispatchTail (request : HttpRequest)
    (config : OutgoingRequestConfig) : ImplOutcome :=
  match request.uri.authority with
  | none => ImplOutcome.anyhowErr "authority not set"
  | some _ => ImplOutcome.dispatch request config

/-- Embeds `send_request_impl` (wasi.rs lines 118-166), embedded up to the call
of `send_request_handler`.  Control flow:
absolute URI → `check_url(..., "https")`, `unwrap_or(false)`, failure →
`HttpRequestDenied`; relative URI → `check_relative_url(["http",
"https"])`, failure → `HttpRequestDenied`, then missing
`self_request_origin` → `HttpRequestUriInvalid`, else the rewrite: TLS
flag from the origin, `Host` header inserted, trace context injected,
URI replaced by `origin.into_uri(path_and_query)`.  Both branches fall
through to `dispatchTail`. -/
def send_request_impl (request : HttpRequest)
    (config : OutgoingRequestConfig) (checks : AllowedHostsChecks)
    (self_request_origin : Option SelfRequestOrigin) : ImplOutcome :=
  if request.uri.authority.isSome then
    -- Absolute URI
    if checks.checkUrl.getD false then
      dispatchTail request config
    else
      ImplOutcome.errorCode ErrorCode.httpRequestDenied
  else
    -- Relative URI ("self" request)
    if checks.checkRelativeUrl.getD false then
      match self_request_origin with
      | none => ImplOutcome.errorCode ErrorCode.httpRequestUriInvalid
      | some origin =>
        let config := { config with use_tls := origin.useTls }
        let request :=
          { request with
              headers := insertHeader request.headers "host"
                origin.hostHeader }
        let request := { request with traceContextInjected := true }
        let path_and_query := request.uri.pathAndQuery
        let request :=
          { request with uri := origin.intoUri path_and_query }
        dispatchTail request config
    else
      ImplOutcome.errorCode ErrorCode.httpRequestDenied

/-! ### `send_request` and the interception hook (wasi.rs lines 84-115) -/

/-- A substituted response produced by
`InterceptOutcome::Complete(res)`, abstracted to an identifier: the
embedded code only passes it through. -/
structure SubstitutedResponse where
  resId : Nat
deriving DecidableEq, Repr

/-- Embeds `crate::InterceptOutcome`.  `intercept(&mut request, &mut config)`
may mutate the request and config in place before continuing, so the
`cont` case carries the values they hold afterwards. -/
inductive InterceptOutcome where
  | cont (request : HttpRequest) (config : OutgoingRequestConfig)
  | complete (res : SubstitutedResponse)
deriving DecidableEq, Repr

/-- An outbound request interceptor
(`self.state.request_interceptor`). -/
def Interceptor :=
  HttpRequest → OutgoingRequestConfig → InterceptOutcome

/-- Observable steps of one `send_request` call, in order.
`intercept` is the `interceptor.intercept(...)` call (wasi.rs line 90);
`authorize` is the allowed-hosts policy check that `send_request_impl`
performs first in either of its branches (wasi.rs lines 127-139). -/
inductive SendEvent where
  | intercept
  | authorize
deriving DecidableEq, Repr

/-- Result of `send_request`: either the interceptor's substituted
response (returned directly, wasi.rs line 92) or the pending future that
runs `send_request_impl` (wasi.rs lines 103-114). -/
inductive SendResultModel where
  | substituted (res : SubstitutedResponse)
  | pend (outcome : ImplOutcome)
deriving DecidableEq, Repr

/-- Embeds `WasiHttpView::send_request` (wasi.rs lines 84-115) together with
the spawned `send_request_impl`, returning the ordered list of observable
steps and the result.  The interceptor, when configured, runs first; on
`Complete` the function returns at once; otherwise the spawned
`send_request_impl` begins with the policy check. -/
def send_request (interceptor : Option Interceptor)
    (request : HttpRequest) (config : OutgoingRequestConfig)
    (checks : AllowedHostsChecks)
    (self_request_origin : Option SelfRequestOrigin) :
    List SendEvent × SendResultModel :=
  match interceptor with
  | some f =>
    match f request config with
    | InterceptOutcome.complete res =>
      ([SendEvent.intercept], SendResultModel.substituted res)
    | InterceptOutcome.cont request config =>
      ([SendEvent.intercept, SendEvent.authorize],
        SendResultModel.pend
          (send_request_impl request config checks self_request_origin))
  | none =>
    ([SendEvent.authorize],
      SendResultModel.pend
        (send_request_impl request config checks self_request_origin))

/-! ### `send_request_handler` (wasi.rs lines 171-303)

The handler is embedded over a `NetBehavior` oracle that fixes, for this
one request, the duration and outcome of every `await` in the pipeline.
`tokio::time::timeout(d, fut)` is embedded as: the future's own duration
when it does not exceed `d` (then its outcome applies), else `d` ticks of
waiting followed by the timeout error.  An `await` with no `timeout`
wrapper waits the future's full duration.  The handler returns the
result together with the total number of ticks spent waiting. -/

/-- Outcome of `TcpStream::connect(&authority_str)` when it completes
within the connect timeout (wasi.rs lines 192-209).
`addrNotAvailable` is `ErrorKind::AddrNotAvailable`; `lookupFailure` is
any other error whose message starts with
"failed to lookup address information"; `otherIoError` is any remaining
error. -/
inductive ConnectOutcome where
  | ok
  | addrNotAvailable
  | lookupFailure
  | otherIoError
deriving DecidableEq, Repr

/-- Embeds `hyper_request_error` (wasi.rs lines 306-317): a hyper error either
carries a wasi-http `ErrorCode` in its source chain (then that code is
returned) or maps to `HttpProtocolError`.  A failing hyper call is
embedded as `some e` where `e` is the embedded cause. -/
inductive HyperOutcome where
  | ok
  | failed (sourceCode : Option ErrorCode)
deriving DecidableEq, Repr

/-- Apply `hyper_request_error` to a failing hyper call's cause. -/
def hyper_request_error (sourceCode : Option ErrorCode) : ErrorCode :=
  sourceCode.getD ErrorCode.httpProtocolError

/-- Durations (in abstract ticks) and outcomes of every `await` in
`send_request_handler`, fixed in advance for one request. -/
structure NetBehavior where
  /-- Duration of `TcpStream::connect` (DNS resolution + TCP connect). -/
  connectDur : Nat
  connectOutcome : ConnectOutcome
  /-- Embeds `ServerName::try_from(host)` succeeds (TLS path only). -/
  tlsDomainValid : Bool
  /-- Duration of `connector.connect(domain, tcp_stream)`. -/
  tlsDur : Nat
  tlsOk : Bool
  /-- Duration of `hyper::client::conn::http1::handshake`. -/
  handshakeDur : Nat
  handshakeOutcome : HyperOutcome
  /-- Duration of `sender.send_request` up to the first byte of the
  response. -/
  firstByteDur : Nat
  sendOutcome : HyperOutcome
deriving DecidableEq, Repr

/-- Embeds `wasmtime_wasi_http::types::IncomingResponse` as built at wasi.rs
lines 298-302: the response, a spawned background connection-driver
task, and the between-bytes timeout passed along for body streaming. -/
structure IncomingResponse where
  workerSpawned : Bool
  between_bytes_timeout : Nat
deriving DecidableEq, Repr

/-- Embeds `authority_str` derivation (wasi.rs lines 181-190): keep an explicit
port, else append 443 (TLS) or 80. -/
def authorityStr (authority : String) (explicitPort : Option Nat)
    (use_tls : Bool) : String :=
  match explicitPort with
  | some p => authority ++ ":" ++ toString p
  | none => authority ++ ":" ++ toString (if use_tls then 443 else 80)

/-- Origin-form rewrite before sending (wasi.rs lines 281-290): the
request line keeps only the path and query, defaulting to "/". -/
def originFormUri (pathAndQuery : Option String) : UriModel :=
  ⟨none, none, some (pathAndQuery.getD "/")⟩

/-- Steps of `send_request_handler` from the HTTP/1.1 handshake on
(wasi.rs lines 237-302), shared by the TLS and plain branches.
`elapsed` is the waiting already spent before the handshake. -/
def handshakeAndSend (cfg : OutgoingRequestConfig) (net : NetBehavior)
    (elapsed : Nat) : Except ErrorCode IncomingResponse × Nat :=
  let hsWait := min net.handshakeDur cfg.connect_timeout
  if cfg.connect_timeout < net.handshakeDur then
    (Except.error ErrorCode.connectionTimeout, elapsed + hsWait)
  else
    match net.handshakeOutcome with
    | HyperOutcome.failed c =>
      (Except.error (hyper_request_error c), elapsed + hsWait)
    | HyperOutcome.ok =>
      let fbWait := min net.firstByteDur cfg.first_byte_timeout
      if cfg.first_byte_timeout < net.firstByteDur then
        (Except.error ErrorCode.connectionReadTimeout,
          elapsed + hsWait + fbWait)
      else
        match net.sendOutcome with
        | HyperOutcome.failed c =>
          (Except.error (hyper_request_error c), elapsed + hsWait + fbWait)
        | HyperOutcome.ok =>
          (Except.ok ⟨true, cfg.between_bytes_timeout⟩,
            elapsed + hsWait + fbWait)

/-- Embeds `send_request_handler` (wasi.rs lines 171-303) over the behavior
oracle, returning the result and the total ticks waited.  The pipeline:
missing authority → `HttpRequestUriInvalid`; `TcpStream::connect` under
`timeout(connect_timeout, ·)`, its failure classified by
`ConnectOutcome`; if TLS: `ServerName` validation, then the TLS
handshake awaited with no timeout wrapper, failure →
`TlsProtocolError`; then the HTTP/1.1 handshake under
`timeout(connect_timeout, ·)` and the send under
`timeout(first_byte_timeout, ·)`. -/
def send_request_handler (authority : Option String)
    (cfg : OutgoingRequestConfig) (net : NetBehavior) :
    Except ErrorCode IncomingResponse × Nat :=
  match authority with
  | none => (Except.error ErrorCode.httpRequestUriInvalid, 0)
  | some _ =>
    let connectWait := min net.connectDur cfg.connect_timeout
    if cfg.connect_timeout < net.connectDur then
      (Except.error ErrorCode.connectionTimeout, connectWait)
    else
      match net.connectOutcome with
      | ConnectOutcome.addrNotAvailable =>
        (Except.error (ErrorCode.dnsError "address not available" 0),
          connectWait)
      | ConnectOutcome.lookupFailure =>
        (Except.error (ErrorCode.dnsError "address not available" 0),
          connectWait)
      | ConnectOutcome.otherIoError =>
        (Except.error ErrorCode.connectionRefused, connectWait)
      | ConnectOutcome.ok =>
        if cfg.use_tls then
          if net.tlsDomainValid then
            -- `connector.connect(domain, tcp_stream).await`: no timeout
            -- wrapper around this await (wasi.rs line 231).
            if net.tlsOk then
              handshakeAndSend cfg net (connectWait + net.tlsDur)
            else
              (Except.error ErrorCode.tlsProtocolError,
                connectWait + net.tlsDur)
          else
            (Except.error (ErrorCode.dnsError "invalid dns name" 0),
              connectWait)
        else
          handshakeAndSend cfg net connectWait

/-! ### Connection Resource Table -/

/-- Modelled from the spec: the `spin_resource_table::Table` (and the
mysql crate's `table::Table`) used by both adapters is not among the
provided sources.  The spec describes it as an arena assigning "stable
opaque handles to live backend connection objects", with fixed capacity,
`insert(value) -> handle | full-error`, `get_mut(handle)`, `remove`,
handles "never reused while the underlying connection is alive", and
"insertion beyond capacity fails without side effects".  Keys are drawn
from a monotone counter so a live handle is never reissued. -/
structure Table (α : Type) where
  capacity : Nat
  entries : List (Nat × α)
  next_key : Nat

/-- Modelled from the spec: `push` (`insert(value) -> handle |
full-error`): fails without side effects when the table is at
capacity. -/
def Table.push {α : Type} (t : Table α) (v : α) :
    Option (Nat × Table α) :=
  if t.entries.length < t.capacity then
    some (t.next_key,
      ⟨t.capacity, t.entries ++ [(t.next_key, v)], t.next_key + 1⟩)
  else
    none

/-- Modelled from the spec: `get_mut(handle) -> value |
not-found-error`. -/
def Table.get_mut {α : Type} (t : Table α) (k : Nat) : Option α :=
  (t.entries.find? (fun p => p.1 == k)).map (fun p => p.2)

/-- Modelled from the spec: `remove(handle)`; the handle "becomes
invalid (lookup fails) once the connection is removed". -/
def Table.remove {α : Type} (t : Table α) (k : Nat) : Table α :=
  ⟨t.capacity, t.entries.filter (fun p => p.1 ≠ k), t.next_key⟩

/-- Table well-formedness: every live key was issued before the current
counter value.  Holds for any table built by `push`/`remove` from an
empty one. -/
def Table.WF {α : Type} (t : Table α) : Prop :=
  ∀ p ∈ t.entries, p.1 < t.next_key

/-! ### Key-value / pub-sub adapter (factor-outbound-redis/src/host.rs)

Connections are abstracted to `Nat` identifiers.  The oracles in
`RedisEnv` fix the outcome of each awaited call of one scenario:
`allowed_hosts.check_url(address, "redis")` (an `anyhow::Result<bool>`,
embedded as `Except String Bool`), `redis::Client::open` URL parsing,
`get_multiplexed_async_connection_with_config` (the network attempt),
and the backend's replies to GET and SET. -/

/-- Embeds `spin_world::v2::redis::Error` (declared in the spin-world ABI crate,
not among the sources); the adapter constructs exactly these variants. -/
inductive RedisError where
  | invalidAddress
  | tooManyConnections
  | typeError
  | other (msg : String)
deriving DecidableEq, Repr

/-- Embeds `spin_world::v1::redis::Error`: the single-variant legacy error
(`v1::Error::Error`) every failure collapses to in the shim. -/
inductive V1RedisError where
  | error
deriving DecidableEq, Repr

/-- Outcome oracles for one key-value scenario. -/
structure RedisEnv where
  /-- Embeds `self.allowed_hosts.check_url(address, "redis")`. -/
  isAllowed : String → Except String Bool
  /-- Embeds `redis::Client::open(address)` parse success. -/
  clientParseOk : String → Bool
  /-- Embeds `get_multiplexed_async_connection_with_config`: the connection
  attempt, yielding a connection identifier or a driver error text. -/
  connectConn : String → Except String Nat
  /-- Backend reply to `conn.get(key)`. -/
  backendGet : Nat → String → Except String (Option (List Nat))
  /-- Backend reply to `conn.set(key, value)`. -/
  backendSet : Nat → String → List Nat → Except String Unit

/-- Result of a call that may touch the connection table:
the returned value, the table afterwards, and how many network
connection attempts were made. -/
structure RedisCallResult (α : Type) where
  result : α
  connections : Table Nat
  netAttempts : Nat

/-- Embeds `InstanceState::establish_connection` (host.rs lines 28-43):
parse the address (`Error::InvalidAddress` on failure), connect
(`other_error` on failure), then `connections.push`
(`Error::TooManyConnections` when full). -/
def establish_connection (env : RedisEnv) (st : Table Nat)
    (address : String) : RedisCallResult (Except RedisError Nat) :=
  if env.clientParseOk address then
    match env.connectConn address with
    | Except.error e => ⟨Except.error (RedisError.other e), st, 1⟩
    | Except.ok conn =>
      match st.push conn with
      | some (h, st2) => ⟨Except.ok h, st2, 1⟩
      | none => ⟨Except.error RedisError.tooManyConnections, st, 1⟩
  else
    ⟨Except.error RedisError.invalidAddress, st, 0⟩

namespace Redis

/-- Embeds `v2::HostConnection::open` (host.rs lines 65-77): the
`is_address_allowed` check — an `Err` from the check maps to
`Error::Other`, a `false` verdict returns `Error::InvalidAddress` —
then `establish_connection`. -/
def openConn (env : RedisEnv) (st : Table Nat) (address : String) :
    RedisCallResult (Except RedisError Nat) :=
  match env.isAllowed address with
  | Except.error e => ⟨Except.error (RedisError.other e), st, 0⟩
  | Except.ok false => ⟨Except.error RedisError.invalidAddress, st, 0⟩
  | Except.ok true => establish_connection env st address

/-- Embeds `v2::HostConnection::get` (host.rs lines 97-105): fetch the
connection by handle (`get_conn`, whose not-found error is
`Error::Other` and stays an `Other` after the outer
`map_err(other_error)`), then the backend GET, errors mapped by
`other_error`. -/
def v2Get (env : RedisEnv) (st : Table Nat) (h : Nat) (key : String) :
    Except RedisError (Option (List Nat)) :=
  match st.get_mut h with
  | none =>
    Except.error (RedisError.other "could not find connection for resource")
  | some conn =>
    match env.backendGet conn key with
    | Except.error e => Except.error (RedisError.other e)
    | Except.ok v => Except.ok v

/-- Embeds `v2::HostConnection::set` (host.rs lines 108-119). -/
def v2Set (env : RedisEnv) (st : Table Nat) (h : Nat) (key : String)
    (value : List Nat) : Except RedisError Unit :=
  match st.get_mut h with
  | none =>
    Except.error (RedisError.other "could not find connection for resource")
  | some conn =>
    match env.backendSet conn key value with
    | Except.error e => Except.error (RedisError.other e)
    | Except.ok _ => Except.ok ()

/-- The `delegate!` macro body (host.rs lines 219-232) around a v2 verb
returning `α`: re-check the policy (any failure → `v1::Error::Error`),
`establish_connection` (failure → `v1::Error::Error`), run the verb on
the fresh connection, collapse its error.  The macro never removes the
fresh connection from the table. -/
def delegateRun {α : Type} (env : RedisEnv) (st : Table Nat)
    (address : String)
    (verb : Table Nat → Nat → Except RedisError α) :
    RedisCallResult (Except V1RedisError α) :=
  match env.isAllowed address with
  | Except.error _ => ⟨Except.error V1RedisError.error, st, 0⟩
  | Except.ok false => ⟨Except.error V1RedisError.error, st, 0⟩
  | Except.ok true =>
    let opened := establish_connection env st address
    match opened.result with
    | Except.error _ =>
      ⟨Except.error V1RedisError.error, opened.connections,
        opened.netAttempts⟩
    | Except.ok h =>
      match verb opened.connections h with
      | Except.error _ =>
        ⟨Except.error V1RedisError.error, opened.connections,
          opened.netAttempts⟩
      | Except.ok v =>
        ⟨Except.ok v, opened.connections, opened.netAttempts⟩

/-- Embeds `v1::Host::get` (host.rs lines 244-246):
`delegate!(self.get(address, key)).map(|v| v.unwrap_or_default())`. -/
def v1Get (env : RedisEnv) (st : Table Nat) (address key : String) :
    RedisCallResult (Except V1RedisError (List Nat)) :=
  let r := delegateRun env st address (fun t h => v2Get env t h key)
  ⟨r.result.map (fun v => v.getD []), r.connections, r.netAttempts⟩

/-- Embeds `v1::Host::set` (host.rs lines 248-250):
`delegate!(self.set(address, key, value))`. -/
def v1Set (env : RedisEnv) (st : Table Nat) (address key : String)
    (value : List Nat) :
    RedisCallResult (Except V1RedisError Unit) :=
  delegateRun env st address (fun t h => v2Set env t h key value)

end Redis

/-! ### Relational adapter (outbound-mysql/src/lib.rs) -/

/-- Embeds `spin_world::v2::mysql::Error` (`v2::rdbms_types`, declared in the
spin-world ABI crate, not among the sources); the adapter constructs
exactly these variants. -/
inductive MysqlError where
  | connectionFailed (msg : String)
  | queryFailed (msg : String)
  | valueConversionFailed (msg : String)
  | other (msg : String)
deriving DecidableEq, Repr

/-- Whether an error uses the `ConnectionFailed` constructor — the kind
the adapter reports for a failed connection attempt. -/
def MysqlError.isConnectionFailed : MysqlError → Bool
  | MysqlError.connectionFailed _ => true
  | _ => false

/-- Outcome oracles for one relational scenario. -/
structure MysqlEnv where
  /-- Embeds `spin_outbound_networking::check_url(address, "mysql",
  &self.allowed_hosts)`. -/
  checkUrl : String → Bool
  /-- Embeds `build_conn(address)`: parse the URL and obtain a pooled
  connection; the error text is the `{e:?}` debug rendering. -/
  buildConn : String → Except String Nat
  /-- The driver's reply to `exec_batch(statement, params)` on a
  connection; the error text is the `{:?}` debug rendering. -/
  execOutcome : Nat → String → Except String Unit

namespace Mysql

/-- Embeds `OutboundMysql::open_connection` (lib.rs lines 25-34): `build_conn`
(failure → `ConnectionFailed({e:?})`), then `connections.push` (failure
→ `ConnectionFailed("too many connections")`). -/
def open_connection (env : MysqlEnv) (st : Table Nat)
    (address : String) : RedisCallResult (Except MysqlError Nat) :=
  match env.buildConn address with
  | Except.error e => ⟨Except.error (MysqlError.connectionFailed e), st, 1⟩
  | Except.ok conn =>
    match st.push conn with
    | some (h, st2) => ⟨Except.ok h, st2, 1⟩
    | none =>
      ⟨Except.error (MysqlError.connectionFailed "too many connections"),
        st, 1⟩

/-- Embeds `v2::HostConnection::open` (lib.rs lines 88-95): the allowed-hosts
check (denial → `ConnectionFailed("address {address} is not
permitted")`), then `open_connection`. -/
def openConn (env : MysqlEnv) (st : Table Nat) (address : String) :
    RedisCallResult (Except MysqlError Nat) :=
  if env.checkUrl address then
    open_connection env st address
  else
    ⟨Except.error (MysqlError.connectionFailed
      ("address " ++ address ++ " is not permitted")), st, 0⟩

/-- Embeds `v2::HostConnection::execute` (lib.rs lines 97-116): fetch the
connection by handle (`get_conn`, not-found →
`ConnectionFailed("no connection found")`), run `exec_batch`, failures →
`QueryFailed({:?})`. -/
def v2Execute (env : MysqlEnv) (st : Table Nat) (h : Nat)
    (statement : String) : Except MysqlError Unit :=
  match st.get_mut h with
  | none => Except.error (MysqlError.connectionFailed "no connection found")
  | some conn =>
    match env.execOutcome conn statement with
    | Except.error e => Except.error (MysqlError.queryFailed e)
    | Except.ok _ => Except.ok ()

/-- Embeds `v1::Host::execute` via the `delegate!` macro (lib.rs lines 160-190):
re-check the policy, `open_connection`, run the v2 verb on the fresh
connection, convert errors `Into` the v1 error type (a variant-wise
conversion, embedded as the identity).  The macro never removes the
fresh connection from the table. -/
def v1Execute (env : MysqlEnv) (st : Table Nat)
    (address statement : String) :
    RedisCallResult (Except MysqlError Unit) :=
  if env.checkUrl address then
    let opened := open_connection env st address
    match opened.result with
    | Except.error e =>
      ⟨Except.error e, opened.connections, opened.netAttempts⟩
    | Except.ok h =>
      ⟨v2Execute env opened.connections h statement,
        opened.connections, opened.netAttempts⟩
  else
    ⟨Except.error (MysqlError.connectionFailed
      ("address " ++ address ++ " is not permitted")), st, 0⟩

end Mysql

/-! ### DNS resolution and the Blocked-Network Filter (claim C1)

Resolved socket addresses are abstracted to `Nat`; a DNS oracle maps a
(host, port) pair to the addresses the system resolver returns.  For
each backend the function below gives the addresses its connection
machinery attempts, read off from the source's call structure. -/

/-- An abstract resolved socket address. -/
abbrev Addr := Nat

/-- A resolver oracle: `lookup_host((host, port))` / the system
resolver's answer. -/
def Dns : Type := String → Nat → List Addr

/-- Modelled from the spec: `BlockedNetworks`
(factor-outbound-networking's `config::blocked_networks`, not among the
sources) holds "an ordered list of network prefixes ... representing
addresses the runtime will never connect to"; prefix containment is
abstracted to membership of the resolved address in the blocked set. -/
structure BlockedNetworks where
  blocked : List Addr

/-- Whether an address falls in the blocked set. -/
def BlockedNetworks.isBlocked (bn : BlockedNetworks) (a : Addr) : Bool :=
  bn.blocked.contains a

/-- Modelled from the spec: `remove_blocked(candidate_addresses) ->
(kept, removed)` — "a stable partition: `kept ∪ removed == candidates`,
`kept ∩ removed == ∅`, and no address in `kept` matches any blocked
prefix".  (The Rust method mutates the candidate list to `kept` and
returns `removed`.) -/
def BlockedNetworks.remove_blocked (bn : BlockedNetworks)
    (addrs : List Addr) : List Addr × List Addr :=
  (addrs.filter (fun a => !(bn.isBlocked a)),
    addrs.filter (fun a => bn.isBlocked a))

/-- Embeds `SpinResolver::resolve` (host.rs lines 379-400): `lookup_host`, then
`remove_blocked`; the iterator handed to the redis driver — hence the
addresses its connection attempt uses — contains exactly the kept
addresses.  (When everything was removed the code additionally logs a
`destination_ip_prohibited` error.) -/
def spinResolverResolve (bn : BlockedNetworks) (dns : Dns)
    (host : String) (port : Nat) : List Addr :=
  let addrs := dns host port
  (bn.remove_blocked addrs).1

/-- Addresses the key-value path attempts: the redis driver connects to
the addresses produced by `SpinResolver`, the resolver installed via
`AsyncConnectionConfig::set_dns_resolver` in `establish_connection`
(host.rs lines 32-33). -/
def redisConnectAttempts (bn : BlockedNetworks) (dns : Dns)
    (host : String) (port : Nat) : List Addr :=
  spinResolverResolve bn dns host port

/-- Addresses the HTTP dispatch path attempts:
`TcpStream::connect(&authority_str)` (wasi.rs line 192) hands the
host-and-port string straight to the operating system, which resolves it
and attempts the resolved addresses — no blocked-network filtering. -/
def httpConnectAttempts (dns : Dns) (host : String) (port : Nat) :
    List Addr :=
  dns host port

/-- Addresses the relational path attempts: `build_conn` (lib.rs lines
342-350) builds a `mysql_async::Pool` from the parsed options and calls
`get_conn()`; the driver resolves the configured host with the system
resolver and attempts the resolved addresses — no blocked-network
filtering. -/
def mysqlConnectAttempts (dns : Dns) (host : String) (port : Nat) :
    List Addr :=
  dns host port

/-! ### Concrete sample inputs used by counterexamples and witnesses -/

/-- A fresh four-slot connection table. -/
def sampleTable : Table Nat := ⟨4, [], 0⟩

/-- A zero-capacity (hence full) connection table. -/
def fullTable : Table Nat := ⟨0, [], 0⟩

/-- A one-slot table already holding connection `11` under handle `0`
— at capacity. -/
def tableOne : Table Nat := ⟨1, [(0, 11)], 1⟩

/-- A sample relative request `/api/x` with no headers. -/
def sampleRelativeRequest : HttpRequest :=
  ⟨⟨none, none, some "/api/x"⟩, [], false⟩

/-- A sample request config. -/
def sampleConfig : OutgoingRequestConfig := ⟨false, 1, 1, 1⟩

/-- Checks granting the relative ("self") request. -/
def sampleRelativeChecks : AllowedHostsChecks := ⟨none, some true⟩

/-- The self-origin of end-to-end scenario 2. -/
def sampleOrigin : SelfRequestOrigin := ⟨"https", "my-app.internal"⟩

/-- A key-value environment where `redis://denied` fails the policy
check while every other address passes it but fails URL parsing. -/
def envDenyOrParse : RedisEnv :=
  ⟨fun a => Except.ok (a != "redis://denied"),
    fun _ => false,
    fun _ => Except.error "no connection attempted",
    fun _ _ => Except.ok none,
    fun _ _ _ => Except.ok ()⟩

/-- A key-value environment where every address is allowed, parses, and
connects as connection `11`; GET finds no value, SET succeeds. -/
def envHappy : RedisEnv :=
  ⟨fun _ => Except.ok true,
    fun _ => true,
    fun _ => Except.ok 11,
    fun _ _ => Except.ok none,
    fun _ _ _ => Except.ok ()⟩

/-- Like `envHappy` but GET finds the empty byte string. -/
def envEmptyValue : RedisEnv :=
  ⟨fun _ => Except.ok true,
    fun _ => true,
    fun _ => Except.ok 11,
    fun _ _ => Except.ok (some []),
    fun _ _ _ => Except.ok ()⟩

/-- A relational environment whose connection attempts succeed as
connection `3` and whose statements execute successfully. -/
def menvHappy : MysqlEnv :=
  ⟨fun _ => true, fun _ => Except.ok 3, fun _ _ => Except.ok ()⟩

/-- A relational environment whose connection attempts fail. -/
def menvRefused : MysqlEnv :=
  ⟨fun _ => true, fun _ => Except.error "Io(ConnectionRefused)",
    fun _ _ => Except.ok ()⟩

/-- A TLS request config with all three timeouts set to 10 ticks. -/
def cfgTls : OutgoingRequestConfig := ⟨true, 10, 10, 10⟩

/-- A network behavior that completes every phase instantly and
successfully except the TLS handshake, which takes `d` ticks. -/
def netSlowTls (d : Nat) : NetBehavior :=
  ⟨0, ConnectOutcome.ok, true, d, true, 0, HyperOutcome.ok, 0,
    HyperOutcome.ok⟩

/-- Premises under which `send_request_handler` reaches the HTTP/1.1
handshake: the connect completed inside the connect timeout and, when
TLS is in use, the server name parsed and the TLS handshake
succeeded. -/
def reachesHandshake (cfg : OutgoingRequestConfig)
    (net : NetBehavior) : Prop :=
  net.connectDur ≤ cfg.connect_timeout ∧
  net.connectOutcome = ConnectOutcome.ok ∧
  (cfg.use_tls = true → net.tlsDomainValid = true ∧ net.tlsOk = true)

/-! ## Claims about the HTTP authorization step -/

/-- C3: For every outgoing HTTP request, an absolute URI that fails the
Policy Engine host/port/scheme check, or a relative URI that fails the
self-request check, yields the terminal request-denied error code; and a
relative request never succeeds when no self-origin is configured — it
yields the invalid-uri error even if the self-request check passed. -/
theorem C3_denied_and_no_origin (request : HttpRequest)
    (config : OutgoingRequestConfig) (checks : AllowedHostsChecks)
    (origin_opt : Option SelfRequestOrigin) :
    (request.uri.authority.isSome = true →
      checks.checkUrl.getD false = false →
      send_request_impl request config checks origin_opt =
        ImplOutcome.errorCode ErrorCode.httpRequestDenied) ∧
    (request.uri.authority = none →
      checks.checkRelativeUrl.getD false = false →
      send_request_impl request config checks origin_opt =
        ImplOutcome.errorCode ErrorCode.httpRequestDenied) ∧
    (request.uri.authority = none →
      checks.checkRelativeUrl.getD false = true →
      origin_opt = none →
      send_request_impl request config checks origin_opt =
        ImplOutcome.errorCode ErrorCode.httpRequestUriInvalid) ∧
    (request.uri.authority = none → origin_opt = none →
      ∀ r c, send_request_impl request config checks origin_opt ≠
        ImplOutcome.dispatch r c) := by
  refine ⟨fun h1 h2 => ?_, fun h1 h2 => ?_, fun h1 h2 h3 => ?_,
    fun h1 h3 => ?_⟩
  · simp [send_request_impl, h1, h2]
  · simp [send_request_impl, h1, h2]
  · simp [send_request_impl, h1, h2, h3]
  · intro r c
    cases hb : checks.checkRelativeUrl.getD false <;>
      simp [send_request_impl, h1, h3, hb]

/-- Witness for C3: a concrete denied absolute request and a concrete
self-allowed relative request with no configured origin. -/
theorem C3_witness :
    send_request_impl ⟨⟨some "https", some "evil.example", some "/"⟩,
        [], false⟩ sampleConfig ⟨some false, none⟩ none =
      ImplOutcome.errorCode ErrorCode.httpRequestDenied ∧
    send_request_impl sampleRelativeRequest sampleConfig
        ⟨none, some true⟩ none =
      ImplOutcome.errorCode ErrorCode.httpRequestUriInvalid := by
  constructor
  · exact (C3_denied_and_no_origin
      ⟨⟨some "https", some "evil.example", some "/"⟩, [], false⟩
      sampleConfig ⟨some false, none⟩ none).1 rfl rfl
  · exact (C3_denied_and_no_origin sampleRelativeRequest sampleConfig
      ⟨none, some true⟩ none).2.2.1 rfl rfl rfl

/-- C7: For every relative outgoing HTTP request with a configured
self-origin, the rewrite step sets the request's TLS flag from the
self-origin's scheme, inserts a `Host` header derived from the
self-origin, injects the tracing context into the outgoing headers, and
replaces the URI with the self-origin's authority plus the original path
and query. -/
theorem C7_self_origin_rewrite (request : HttpRequest)
    (config : OutgoingRequestConfig) (checks : AllowedHostsChecks)
    (origin : SelfRequestOrigin)
    (hrel : request.uri.authority = none)
    (hallow : checks.checkRelativeUrl = some true) :
    send_request_impl request config checks (some origin) =
      ImplOutcome.dispatch
        ⟨origin.intoUri request.uri.pathAndQuery,
          insertHeader request.headers "host" origin.hostHeader, true⟩
        { config with use_tls := origin.useTls } ∧
    ("host", origin.hostHeader) ∈
      insertHeader request.headers "host" origin.hostHeader ∧
    (origin.intoUri request.uri.pathAndQuery).scheme =
      some origin.scheme ∧
    (origin.intoUri request.uri.pathAndQuery).authority =
      some origin.authority ∧
    (origin.intoUri request.uri.pathAndQuery).pathAndQuery =
      request.uri.pathAndQuery := by
  refine ⟨?_, ?_, rfl, rfl, rfl⟩
  · simp [send_request_impl, hrel, hallow, dispatchTail,
      SelfRequestOrigin.intoUri]
  · simp [insertHeader]

/-- Witness for C7, end-to-end scenario 2: relative `/api/x` with
self-origin `https://my-app.internal` is rewritten to
`https://my-app.internal/api/x` over TLS with `Host: my-app.internal`. -/
theorem C7_witness :
    send_request_impl sampleRelativeRequest sampleConfig
        sampleRelativeChecks (some sampleOrigin) =
      ImplOutcome.dispatch
        ⟨⟨some "https", some "my-app.internal", some "/api/x"⟩,
          [("host", "my-app.internal")], true⟩
        ⟨true, 1, 1, 1⟩ ∧
    UriModel.render
      ⟨some "https", some "my-app.internal", some "/api/x"⟩ =
      "https://my-app.internal/api/x" := by
  refine ⟨?_, rfl⟩
  exact (C7_self_origin_rewrite sampleRelativeRequest sampleConfig
    sampleRelativeChecks sampleOrigin rfl rfl).1

/-- C2 counterexample: with an interceptor that substitutes a response,
`send_request` returns the substituted response after a trace that
contains no authorization event at all — so the policy check is not
performed before the interception hook, and a substituted response is
produced for a request that never passed authorization. -/
theorem C2_counterexample :
    (send_request (some fun _ _ => InterceptOutcome.complete ⟨0⟩)
        sampleRelativeRequest sampleConfig sampleRelativeChecks
        none).2 =
      SendResultModel.substituted ⟨0⟩ ∧
    SendEvent.authorize ∉
      (send_request (some fun _ _ => InterceptOutcome.complete ⟨0⟩)
        sampleRelativeRequest sampleConfig sampleRelativeChecks
        none).1 := by
  constructor
  · rfl
  · simp [send_request]

/-- C2 amended: the interception hook runs before the policy check; a
response substituted by the interceptor short-circuits dispatch without
any authorization, and only requests the interceptor lets continue (or
requests with no interceptor configured) reach the policy check. -/
theorem C2_intercept_before_authorize (f : Interceptor)
    (request : HttpRequest) (config : OutgoingRequestConfig)
    (checks : AllowedHostsChecks)
    (origin_opt : Option SelfRequestOrigin) :
    (∀ res,
      (send_request (some f) request config checks origin_opt).2 =
          SendResultModel.substituted res →
        (send_request (some f) request config checks origin_opt).1 =
          [SendEvent.intercept]) ∧
    (∀ out,
      (send_request (some f) request config checks origin_opt).2 =
          SendResultModel.pend out →
        (send_request (some f) request config checks origin_opt).1 =
          [SendEvent.intercept, SendEvent.authorize]) ∧
    (send_request none request config checks origin_opt).1 =
      [SendEvent.authorize] := by
  refine ⟨?_, ?_, rfl⟩
  · intro res h
    cases hf : f request config <;>
      simp [send_request, hf] at h ⊢
  · intro out h
    cases hf : f request config <;>
      simp [send_request, hf] at h ⊢

/-- Witness for C2's amended theorem at a concrete completing
interceptor. -/
theorem C2_witness :
    (send_request (some fun _ _ => InterceptOutcome.complete ⟨5⟩)
        sampleRelativeRequest sampleConfig sampleRelativeChecks
        none).1 =
      [SendEvent.intercept] := by
  exact (C2_intercept_before_authorize
    (fun _ _ => InterceptOutcome.complete ⟨5⟩) sampleRelativeRequest
    sampleConfig sampleRelativeChecks none).1 ⟨5⟩ rfl

/-! ## Claims about the key-value and relational adapters -/

/-- C4 counterexample: a policy-denied `open` and an allowed but
unparseable `open` return the very same error value
(`Error::InvalidAddress`) — the adapter has no separate policy-denial
error, so the denial is not distinct from the invalid-address
condition. -/
theorem C4_counterexample :
    (Redis.openConn envDenyOrParse sampleTable "redis://denied").result =
      Except.error RedisError.invalidAddress ∧
    (Redis.openConn envDenyOrParse sampleTable "not a url").result =
      Except.error RedisError.invalidAddress := by
  exact ⟨rfl, rfl⟩

/-- C4 amended: key-value `open` on a destination denied by policy
returns `Error::InvalidAddress` — the same variant used for an
unparseable destination string, not a distinct policy-denial error —
without any network connection attempt and leaving the connection table
untouched. -/
theorem C4_denied_open (env : RedisEnv) (st : Table Nat)
    (address : String)
    (hdenied : env.isAllowed address = Except.ok false) :
    Redis.openConn env st address =
      ⟨Except.error RedisError.invalidAddress, st, 0⟩ := by
  simp [Redis.openConn, hdenied]

/-- Witness for C4's amended theorem at the concrete denied address. -/
theorem C4_witness :
    Redis.openConn envDenyOrParse sampleTable "redis://denied" =
      ⟨Except.error RedisError.invalidAddress, sampleTable, 0⟩ := by
  exact C4_denied_open envDenyOrParse sampleTable "redis://denied" rfl

/-! ## Claims about the dispatch pipeline's timeouts -/

/-- Waiting from the HTTP/1.1 handshake on adds at most the connect
timeout plus the first-byte timeout. -/
theorem handshakeAndSend_elapsed_le (cfg : OutgoingRequestConfig)
    (net : NetBehavior) (e : Nat) :
    (handshakeAndSend cfg net e).2 ≤
      e + cfg.connect_timeout + cfg.first_byte_timeout := by
  have h1 : min net.handshakeDur cfg.connect_timeout ≤
      cfg.connect_timeout := Nat.min_le_right _ _
  have h2 : min net.firstByteDur cfg.first_byte_timeout ≤
      cfg.first_byte_timeout := Nat.min_le_right _ _
  unfold handshakeAndSend
  dsimp only
  split
  · omega
  · split
    · omega
    · split
      · omega
      · split <;> omega

/-- Total waiting in the handler is bounded by the connect timeout
(DNS + TCP connect), the full TLS handshake duration (unbounded by any
timeout), the connect timeout again (HTTP/1.1 handshake) and the
first-byte timeout. -/
theorem handler_elapsed_le (a : String) (cfg : OutgoingRequestConfig)
    (net : NetBehavior) :
    (send_request_handler (some a) cfg net).2 ≤
      cfg.connect_timeout +
        (if cfg.use_tls then net.tlsDur else 0) +
        cfg.connect_timeout + cfg.first_byte_timeout := by
  have hc : min net.connectDur cfg.connect_timeout ≤
      cfg.connect_timeout := Nat.min_le_right _ _
  have hh := handshakeAndSend_elapsed_le cfg net
    (min net.connectDur cfg.connect_timeout)
  have hht := handshakeAndSend_elapsed_le cfg net
    (min net.connectDur cfg.connect_timeout + net.tlsDur)
  by_cases hu : cfg.use_tls
  · simp only [send_request_handler, hu, if_true]
    split
    · omega
    · split
      · omega
      · omega
      · omega
      · split
        · split
          · omega
          · omega
        · omega
  · simp only [send_request_handler, hu, if_false, Bool.false_eq_true]
    split
    · omega
    · split
      · omega
      · omega
      · omega
      · omega

/-- C5 counterexample: with TLS in use there is no bound on the total
waiting of the pipeline — the TLS client handshake `await` has no
timeout wrapper, so it is not bounded by the connect timeout window and
the pipeline can wait unboundedly. -/
theorem C5_counterexample :
    ¬ ∃ B : Nat, ∀ net : NetBehavior,
        (send_request_handler (some "example.com") cfgTls net).2 ≤ B := by
  rintro ⟨B, hB⟩
  have h := hB (netSlowTls (B + 1))
  have he : (send_request_handler (some "example.com") cfgTls
      (netSlowTls (B + 1))).2 = B + 1 := by
    simp [send_request_handler, handshakeAndSend, cfgTls, netSlowTls]
  omega

/-- C5 amended: every suspension point except the TLS client handshake
is bounded by an explicit timeout — DNS resolution and TCP connect by
the connect timeout, the HTTP/1.1 handshake by the connect timeout, and
the request send / first-byte wait by the first-byte timeout — so a
non-TLS dispatch waits at most `2·connect_timeout + first_byte_timeout`;
but the TLS handshake `await` is wrapped in no timeout, contributing its
full duration. -/
theorem C5_phase_bounds (a : String) (cfg : OutgoingRequestConfig)
    (net : NetBehavior) :
    (cfg.use_tls = false →
      (send_request_handler (some a) cfg net).2 ≤
        cfg.connect_timeout + cfg.connect_timeout +
          cfg.first_byte_timeout) ∧
    (send_request_handler (some a) cfg net).2 ≤
      cfg.connect_timeout + net.tlsDur + cfg.connect_timeout +
        cfg.first_byte_timeout := by
  have h := handler_elapsed_le a cfg net
  constructor
  · intro hu
    rw [hu] at h
    simp only [if_false, Bool.false_eq_true] at h
    omega
  · by_cases hu : cfg.use_tls <;> simp only [hu] at h <;> simp at h <;>
      omega

/-- Witness for C5's amended theorem on a concrete non-TLS
configuration and behavior. -/
theorem C5_witness :
    (send_request_handler (some "example.com") ⟨false, 10, 10, 10⟩
      (netSlowTls 99)).2 ≤ 30 := by
  have h := (C5_phase_bounds "example.com" ⟨false, 10, 10, 10⟩
    (netSlowTls 99)).1 rfl
  simpa using h

/-- A handshake lasting beyond the connect timeout yields
`ConnectionTimeout`. -/
theorem handshakeAndSend_hs_timeout (cfg : OutgoingRequestConfig)
    (net : NetBehavior) (e : Nat)
    (h : cfg.connect_timeout < net.handshakeDur) :
    (handshakeAndSend cfg net e).1 =
      Except.error ErrorCode.connectionTimeout := by
  unfold handshakeAndSend
  simp [h]

/-- A first byte arriving beyond the first-byte timeout yields
`ConnectionReadTimeout`. -/
theorem handshakeAndSend_fb_timeout (cfg : OutgoingRequestConfig)
    (net : NetBehavior) (e : Nat)
    (h1 : net.handshakeDur ≤ cfg.connect_timeout)
    (h2 : net.handshakeOutcome = HyperOutcome.ok)
    (h3 : cfg.first_byte_timeout < net.firstByteDur) :
    (handshakeAndSend cfg net e).1 =
      Except.error ErrorCode.connectionReadTimeout := by
  unfold handshakeAndSend
  simp [Nat.not_lt.2 h1, h2, h3]

/-- A successful result always carries the caller's between-bytes
timeout. -/
theorem handshakeAndSend_ok (cfg : OutgoingRequestConfig)
    (net : NetBehavior) (e : Nat) :
    ∀ resp, (handshakeAndSend cfg net e).1 = Except.ok resp →
      resp.between_bytes_timeout = cfg.between_bytes_timeout := by
  intro resp h
  unfold handshakeAndSend at h
  dsimp only at h
  split at h
  · simp at h
  · split at h
    · simp at h
    · split at h
      · simp at h
      · split at h
        · simp at h
        · cases h
          rfl

/-- Under the premises of `reachesHandshake`, the handler is exactly
`handshakeAndSend` at some already-elapsed wait. -/
theorem handler_reaches (a : String) (cfg : OutgoingRequestConfig)
    (net : NetBehavior) (hr : reachesHandshake cfg net) :
    ∃ e, send_request_handler (some a) cfg net =
      handshakeAndSend cfg net e := by
  obtain ⟨hcd, hco, htls⟩ := hr
  by_cases hu : cfg.use_tls
  · obtain ⟨hd, ht⟩ := htls hu
    refine ⟨min net.connectDur cfg.connect_timeout + net.tlsDur, ?_⟩
    simp [send_request_handler, Nat.not_lt.2 hcd, hco, hu, hd, ht]
  · refine ⟨min net.connectDur cfg.connect_timeout, ?_⟩
    simp [send_request_handler, Nat.not_lt.2 hcd, hco, hu]

/-- C6: exceeding the connect timeout during connect (or the protocol
handshake) yields `ConnectionTimeout`; exceeding the first-byte timeout
while awaiting the response yields the distinct
`ConnectionReadTimeout`; the between-bytes timeout is returned with the
response for downstream enforcement; and the two timeout error codes
are different, never collapsed into one. -/
theorem C6_timeout_classification (a : String)
    (cfg : OutgoingRequestConfig) (net : NetBehavior) :
    (cfg.connect_timeout < net.connectDur →
      (send_request_handler (some a) cfg net).1 =
        Except.error ErrorCode.connectionTimeout) ∧
    (reachesHandshake cfg net →
      cfg.connect_timeout < net.handshakeDur →
      (send_request_handler (some a) cfg net).1 =
        Except.error ErrorCode.connectionTimeout) ∧
    (reachesHandshake cfg net →
      net.handshakeDur ≤ cfg.connect_timeout →
      net.handshakeOutcome = HyperOutcome.ok →
      cfg.first_byte_timeout < net.firstByteDur →
      (send_request_handler (some a) cfg net).1 =
        Except.error ErrorCode.connectionReadTimeout) ∧
    (∀ resp, (send_request_handler (some a) cfg net).1 =
        Except.ok resp →
      resp.between_bytes_timeout = cfg.between_bytes_timeout) ∧
    ErrorCode.connectionTimeout ≠ ErrorCode.connectionReadTimeout := by
  refine ⟨?_, ?_, ?_, ?_, by decide⟩
  · intro h
    simp [send_request_handler, h]
  · intro hr hhs
    obtain ⟨e, heq⟩ := handler_reaches a cfg net hr
    rw [heq]
    exact handshakeAndSend_hs_timeout cfg net e hhs
  · intro hr h1 h2 h3
    obtain ⟨e, heq⟩ := handler_reaches a cfg net hr
    rw [heq]
    exact handshakeAndSend_fb_timeout cfg net e h1 h2 h3
  · intro resp h
    simp only [send_request_handler] at h
    split at h
    · simp at h
    · split at h
      · simp at h
      · simp at h
      · simp at h
      · split at h
        · split at h
          · split at h
            · exact handshakeAndSend_ok cfg net _ resp h
            · simp at h
          · simp at h
        · exact handshakeAndSend_ok cfg net _ resp h

/-- Witness for C6 on concrete behaviors: a slow connect, a slow
handshake, a slow first byte, and a full success. -/
theorem C6_witness :
    (send_request_handler (some "h") ⟨false, 10, 10, 7⟩
        ⟨11, ConnectOutcome.ok, true, 0, true, 0, HyperOutcome.ok, 0,
          HyperOutcome.ok⟩).1 =
      Except.error ErrorCode.connectionTimeout ∧
    (send_request_handler (some "h") ⟨false, 10, 10, 7⟩
        ⟨0, ConnectOutcome.ok, true, 0, true, 11, HyperOutcome.ok, 0,
          HyperOutcome.ok⟩).1 =
      Except.error ErrorCode.connectionTimeout ∧
    (send_request_handler (some "h") ⟨false, 10, 10, 7⟩
        ⟨0, ConnectOutcome.ok, true, 0, true, 0, HyperOutcome.ok, 11,
          HyperOutcome.ok⟩).1 =
      Except.error ErrorCode.connectionReadTimeout ∧
    (⟨true, 7⟩ : IncomingResponse).between_bytes_timeout = 7 := by
  refine ⟨?_, ?_, ?_, ?_⟩
  · exact (C6_timeout_classification "h" ⟨false, 10, 10, 7⟩
      ⟨11, ConnectOutcome.ok, true, 0, true, 0, HyperOutcome.ok, 0,
        HyperOutcome.ok⟩).1 (by decide)
  · exact (C6_timeout_classification "h" ⟨false, 10, 10, 7⟩
      ⟨0, ConnectOutcome.ok, true, 0, true, 11, HyperOutcome.ok, 0,
        HyperOutcome.ok⟩).2.1
      ⟨by decide, rfl, fun h => nomatch h⟩ (by decide)
  · exact (C6_timeout_classification "h" ⟨false, 10, 10, 7⟩
      ⟨0, ConnectOutcome.ok, true, 0, true, 0, HyperOutcome.ok, 11,
        HyperOutcome.ok⟩).2.2.1
      ⟨by decide, rfl, fun h => nomatch h⟩ (by decide) rfl (by decide)
  · exact (C6_timeout_classification "h" ⟨false, 10, 10, 7⟩
      ⟨0, ConnectOutcome.ok, true, 0, true, 0, HyperOutcome.ok, 0,
        HyperOutcome.ok⟩).2.2.2.1 ⟨true, 7⟩ rfl

/-! ## Claims about the Blocked-Network Filter wiring -/

/-- C1 counterexample: it is not the case that every backend path only
attempts unblocked addresses.  With a resolver answering a single
blocked address, the HTTP dispatch path (`TcpStream::connect`) and the
relational path both attempt that address — only the key-value path's
resolver is wired to `remove_blocked`. -/
theorem C1_counterexample :
    ¬ (∀ (dns : Dns) (bn : BlockedNetworks) (host : String)
        (port : Nat),
      (∀ a ∈ httpConnectAttempts dns host port,
        bn.isBlocked a = false) ∧
      (∀ a ∈ redisConnectAttempts bn dns host port,
        bn.isBlocked a = false) ∧
      (∀ a ∈ mysqlConnectAttempts dns host port,
        bn.isBlocked a = false)) := by
  intro h
  have hh := (h (fun _ _ => [7]) ⟨[7]⟩ "example.com" 80).1 7
    (by simp [httpConnectAttempts])
  simp [BlockedNetworks.isBlocked] at hh

/-- C1 amended: only the key-value path's resolver is wired to the
Blocked-Network Filter — the addresses it attempts never include a
blocked one — while the HTTP dispatch path and the relational path
attempt exactly what DNS resolution returned, with no blocked-network
filtering. -/
theorem C1_only_redis_filters (bn : BlockedNetworks) (dns : Dns)
    (host : String) (port : Nat) :
    (∀ a ∈ redisConnectAttempts bn dns host port,
      bn.isBlocked a = false) ∧
    httpConnectAttempts dns host port = dns host port ∧
    mysqlConnectAttempts dns host port = dns host port := by
  refine ⟨?_, rfl, rfl⟩
  intro a ha
  have hm := List.of_mem_filter
    (p := fun a => !(bn.isBlocked a)) (a := a) ha
  simpa using hm

/-- Witness for C1's amended theorem: with blocked set `{7}` and a
resolver answering `[3, 7]`, the key-value path keeps only `3`, which is
not blocked. -/
theorem C1_witness :
    (⟨[7]⟩ : BlockedNetworks).isBlocked 3 = false ∧
    redisConnectAttempts ⟨[7]⟩ (fun _ _ => [3, 7]) "h" 6379 = [3] := by
  refine ⟨?_, by decide⟩
  exact (C1_only_redis_filters ⟨[7]⟩ (fun _ _ => [3, 7]) "h" 6379).1 3
    (by decide)

/-! ## Claims about the Connection Resource Table at capacity -/

/-- Removing a present key strictly shrinks the entry list. -/
theorem length_filter_ne_lt {α : Type} (l : List (Nat × α)) (k : Nat)
    (hm : k ∈ l.map Prod.fst) :
    (l.filter (fun p => p.1 ≠ k)).length < l.length := by
  induction l with
  | nil => simp at hm
  | cons x xs ih =>
    simp only [List.map_cons, List.mem_cons] at hm
    by_cases hx : x.1 = k
    · have hd : (decide (x.1 ≠ k)) = false := by simp [hx]
      have hle : (xs.filter (fun p => p.1 ≠ k)).length ≤ xs.length :=
        List.length_filter_le _ _
      rw [List.filter_cons, hd, if_neg (by simp)]
      simp only [List.length_cons]
      omega
    · rcases hm with hm | hm
      · exact absurd hm.symm hx
      · have hlt := ih hm
        have hd : (decide (x.1 ≠ k)) = true := by simp [hx]
        rw [List.filter_cons, hd, if_pos rfl]
        simp only [List.length_cons]
        omega

/-- C8 counterexample: the relational adapter reports a full connection
table as `ConnectionFailed("too many connections")` — the very
constructor used for a genuine connection failure — so the
resource-exhaustion error is not of a kind distinct from a connection
failure. -/
theorem C8_counterexample :
    (Mysql.open_connection menvHappy fullTable "mysql://u@h/db").result =
      Except.error (MysqlError.connectionFailed "too many connections") ∧
    (Mysql.open_connection menvRefused sampleTable
        "mysql://u@h/db").result =
      Except.error
        (MysqlError.connectionFailed "Io(ConnectionRefused)") ∧
    MysqlError.isConnectionFailed
      (MysqlError.connectionFailed "too many connections") = true := by
  exact ⟨rfl, rfl, rfl⟩

/-- C8 amended: when the per-instance connection table is full, the
key-value adapter's open fails with the dedicated recoverable
`TooManyConnections` error (distinct from both the driver-failure
`Other` kind and `InvalidAddress`) leaving the table unchanged; the
relational adapter signals the same condition as
`ConnectionFailed("too many connections")` — the constructor also used
for connection failures, distinguished only by its message; and after
removing a held handle a subsequent insertion succeeds. -/
theorem C8_table_full (env : RedisEnv) (menv : MysqlEnv)
    (st stm : Table Nat) (address maddr : String) (conn mconn : Nat)
    (hfull : st.entries.length = st.capacity)
    (hparse : env.clientParseOk address = true)
    (hconn : env.connectConn address = Except.ok conn)
    (hmfull : stm.entries.length = stm.capacity)
    (hmconn : menv.buildConn maddr = Except.ok mconn) :
    (establish_connection env st address).result =
      Except.error RedisError.tooManyConnections ∧
    (establish_connection env st address).connections = st ∧
    (∀ s, RedisError.tooManyConnections ≠ RedisError.other s) ∧
    RedisError.tooManyConnections ≠ RedisError.invalidAddress ∧
    (Mysql.open_connection menv stm maddr).result =
      Except.error
        (MysqlError.connectionFailed "too many connections") ∧
    (∀ k v, k ∈ st.entries.map Prod.fst →
      ((st.remove k).push v).isSome = true) := by
  have hnp : st.push conn = none := by
    simp [Table.push, hfull]
  have hmp : stm.push mconn = none := by
    simp [Table.push, hmfull]
  refine ⟨?_, ?_, ?_, ?_, ?_, ?_⟩
  · simp [establish_connection, hparse, hconn, hnp]
  · simp [establish_connection, hparse, hconn, hnp]
  · intro s h
    exact nomatch h
  · intro h
    exact nomatch h
  · simp [Mysql.open_connection, hmconn, hmp]
  · intro k v hm
    have hlt := length_filter_ne_lt st.entries k hm
    have hcond : (st.remove k).entries.length < (st.remove k).capacity := by
      simp only [Table.remove]
      omega
    simp [Table.push, hcond]

/-- Witness for C8's amended theorem on a full one-slot table: open
fails with `TooManyConnections`, and after removing handle `0` an
insertion succeeds again. -/
theorem C8_witness :
    (establish_connection envHappy tableOne "redis://ok").result =
      Except.error RedisError.tooManyConnections ∧
    ((tableOne.remove 0).push 5).isSome = true := by
  have h := C8_table_full envHappy menvHappy tableOne fullTable
    "redis://ok" "mysql://u@h/db" 11 3 rfl rfl rfl rfl rfl
  exact ⟨h.1, h.2.2.2.2.2 0 5 (by decide)⟩

/-! ## Claims about the legacy guest ABI shim -/

/-- A lookup for a key larger than every key in the list finds
nothing. -/
theorem find?_key_eq_none {α : Type} (l : List (Nat × α)) (k : Nat)
    (hk : ∀ p ∈ l, p.1 < k) :
    l.find? (fun p => p.1 == k) = none := by
  induction l with
  | nil => rfl
  | cons x xs ih =>
    have hx := hk x (by simp)
    have hd : (x.1 == k) = false := by
      simp only [beq_eq_false_iff_ne]
      omega
    rw [List.find?_cons, hd]
    exact ih (fun p hp => hk p (by simp [hp]))

/-- Appending a strictly larger key and looking it up finds exactly the
appended pair. -/
theorem find?_key_append {α : Type} (l : List (Nat × α)) (k : Nat)
    (v : α) (hk : ∀ p ∈ l, p.1 < k) :
    (l ++ [(k, v)]).find? (fun p => p.1 == k) = some (k, v) := by
  induction l with
  | nil => simp [List.find?]
  | cons x xs ih =>
    have hx := hk x (by simp)
    have hd : (x.1 == k) = false := by
      simp only [beq_eq_false_iff_ne]
      omega
    rw [List.cons_append, List.find?_cons, hd]
    exact ih (fun p hp => hk p (by simp [hp]))

/-- The well-formed table's next key is not yet occupied. -/
theorem Table.get_mut_next_key {α : Type} (t : Table α) (hwf : t.WF) :
    t.get_mut t.next_key = none := by
  unfold Table.get_mut
  rw [find?_key_eq_none t.entries t.next_key hwf]
  rfl

/-- The sample empty table is well-formed. -/
theorem sampleTable_wf : sampleTable.WF := by
  intro p hp
  simp [sampleTable] at hp

/-- C9 counterexample: a successful legacy `get` leaves the freshly
opened connection in the resource table — its handle still resolves
after the call — so the legacy path does not discard the connection
afterward. -/
theorem C9_counterexample :
    (Redis.v1Get envHappy sampleTable "redis://ok" "k").result =
      Except.ok [] ∧
    (Redis.v1Get envHappy sampleTable "redis://ok" "k").connections.entries =
      [(0, 11)] ∧
    (Redis.v1Get envHappy sampleTable "redis://ok"
      "k").connections.get_mut 0 = some 11 ∧
    sampleTable.entries = [] := by
  exact ⟨rfl, rfl, rfl, rfl⟩

/-- C9 amended: each legacy verb checks the policy, opens a fresh
connection (a handle never seen in the prior table), delegates to the
current-ABI verb on that connection, and returns that verb's result with
every error collapsed to the single legacy error — so the legacy path
never reuses a connection across calls; however, the fresh connection is
left in the resource table after the call rather than discarded. -/
theorem C9_legacy_delegation {α : Type} (env : RedisEnv)
    (st : Table Nat) (address : String)
    (verb : Table Nat → Nat → Except RedisError α) (conn : Nat)
    (menv : MysqlEnv) (stm : Table Nat) (maddr statement : String)
    (mconn : Nat)
    (hwf : st.WF)
    (hallow : env.isAllowed address = Except.ok true)
    (hparse : env.clientParseOk address = true)
    (hconn : env.connectConn address = Except.ok conn)
    (hroom : st.entries.length < st.capacity)
    (hmwf : stm.WF)
    (hmallow : menv.checkUrl maddr = true)
    (hmconn : menv.buildConn maddr = Except.ok mconn)
    (hmroom : stm.entries.length < stm.capacity) :
    (establish_connection env st address).result =
      Except.ok st.next_key ∧
    st.get_mut st.next_key = none ∧
    ((Redis.delegateRun env st address verb).result =
      match verb (establish_connection env st address).connections
          st.next_key with
      | Except.ok v => Except.ok v
      | Except.error _ => Except.error V1RedisError.error) ∧
    (Redis.delegateRun env st address verb).connections =
      (establish_connection env st address).connections ∧
    (establish_connection env st address).connections.get_mut
      st.next_key = some conn ∧
    (Mysql.open_connection menv stm maddr).result =
      Except.ok stm.next_key ∧
    stm.get_mut stm.next_key = none ∧
    (Mysql.v1Execute menv stm maddr statement).result =
      Mysql.v2Execute menv
        (Mysql.open_connection menv stm maddr).connections
        stm.next_key statement ∧
    (Mysql.v1Execute menv stm maddr statement).connections =
      (Mysql.open_connection menv stm maddr).connections ∧
    (Mysql.open_connection menv stm maddr).connections.get_mut
      stm.next_key = some mconn := by
  have hest : establish_connection env st address =
      ⟨Except.ok st.next_key,
        ⟨st.capacity, st.entries ++ [(st.next_key, conn)],
          st.next_key + 1⟩, 1⟩ := by
    simp [establish_connection, hparse, hconn, Table.push, hroom]
  have hmest : Mysql.open_connection menv stm maddr =
      ⟨Except.ok stm.next_key,
        ⟨stm.capacity, stm.entries ++ [(stm.next_key, mconn)],
          stm.next_key + 1⟩, 1⟩ := by
    simp [Mysql.open_connection, hmconn, Table.push, hmroom]
  refine ⟨by rw [hest], Table.get_mut_next_key st hwf, ?_, ?_, ?_,
    by rw [hmest], Table.get_mut_next_key stm hmwf, ?_, ?_, ?_⟩
  · rw [Redis.delegateRun, hallow, hest]
    cases hv : verb
        (⟨st.capacity, st.entries ++ [(st.next_key, conn)],
          st.next_key + 1⟩ : Table Nat) st.next_key <;>
      simp [hv]
  · rw [Redis.delegateRun, hallow, hest]
    cases hv : verb
        (⟨st.capacity, st.entries ++ [(st.next_key, conn)],
          st.next_key + 1⟩ : Table Nat) st.next_key <;>
      simp [hv]
  · rw [hest]
    unfold Table.get_mut
    rw [find?_key_append st.entries st.next_key conn hwf]
    rfl
  · rw [Mysql.v1Execute, hmest]
    simp [hmallow]
  · rw [Mysql.v1Execute, hmest]
    simp [hmallow]
  · rw [hmest]
    unfold Table.get_mut
    rw [find?_key_append stm.entries stm.next_key mconn hmwf]
    rfl

/-- Witness for C9's amended theorem on the concrete happy-path
environment. -/
theorem C9_witness :
    (establish_connection envHappy sampleTable "redis://ok").result =
      Except.ok 0 ∧
    sampleTable.get_mut 0 = none ∧
    (establish_connection envHappy sampleTable
      "redis://ok").connections.get_mut 0 = some 11 ∧
    (Mysql.open_connection menvHappy sampleTable
      "mysql://u@h/db").connections.get_mut 0 = some 3 := by
  have h := C9_legacy_delegation envHappy sampleTable "redis://ok"
    (fun t k => Redis.v2Get envHappy t k "k") 11
    menvHappy sampleTable "mysql://u@h/db" "SELECT 1" 3
    sampleTable_wf rfl rfl rfl (by decide)
    sampleTable_wf rfl rfl (by decide)
  exact ⟨h.1, h.2.1, h.2.2.2.2.1, h.2.2.2.2.2.2.2.2.2⟩

/-- C10: the legacy key-value `get` never reports an absent key — when
the current-ABI backend GET finds no value it returns the empty byte
string, exactly as it does for a key stored with an empty value. -/
theorem C10_absent_key (env : RedisEnv) (st : Table Nat)
    (address key : String) (conn : Nat)
    (hwf : st.WF)
    (hallow : env.isAllowed address = Except.ok true)
    (hparse : env.clientParseOk address = true)
    (hconn : env.connectConn address = Except.ok conn)
    (hroom : st.entries.length < st.capacity) :
    (env.backendGet conn key = Except.ok none →
      (Redis.v1Get env st address key).result = Except.ok []) ∧
    (env.backendGet conn key = Except.ok (some []) →
      (Redis.v1Get env st address key).result = Except.ok []) := by
  have hest : establish_connection env st address =
      ⟨Except.ok st.next_key,
        ⟨st.capacity, st.entries ++ [(st.next_key, conn)],
          st.next_key + 1⟩, 1⟩ := by
    simp [establish_connection, hparse, hconn, Table.push, hroom]
  have hget : (⟨st.capacity, st.entries ++ [(st.next_key, conn)],
      st.next_key + 1⟩ : Table Nat).get_mut st.next_key = some conn := by
    unfold Table.get_mut
    rw [find?_key_append st.entries st.next_key conn hwf]
    rfl
  constructor <;> intro hb <;>
    simp [Redis.v1Get, Redis.delegateRun, hallow, hest, Redis.v2Get,
      hget, hb, Except.map]

/-- Witness for C10: a backend with no value under the key and a backend
holding the empty byte string produce the same legacy result. -/
theorem C10_witness :
    (Redis.v1Get envHappy sampleTable "redis://a" "k").result =
      Except.ok [] ∧
    (Redis.v1Get envEmptyValue sampleTable "redis://a" "k").result =
      Except.ok [] := by
  constructor
  · exact (C10_absent_key envHappy sampleTable "redis://a" "k" 11
      sampleTable_wf rfl rfl rfl (by decide)).1 rfl
  · exact (C10_absent_key envEmptyValue sampleTable "redis://a" "k" 11
      sampleTable_wf rfl rfl rfl (by decide)).2 rfl

end Spin
